import Mathlib

/-!
Verification development for the tenant-provisioning core of maven-core.

The definitions below are a shallow embedding of the Python sources:
  - `src/maven_core/provisioning/tiers.py` (tier catalog, step catalog, filter)
  - `src/maven_core/provisioning/tenant.py` (job store, orchestration engine,
    tenant record lifecycle)
  - `src/maven_core/server/routes.py` (progress streaming endpoint)

Timestamps are modelled as `Nat` (the code uses `time.time()` floats only as
opaque wall-clock values), the relational store as association lists, UUID
generation as an injected identifier, and step handlers as an injected
oracle `String → Except String Unit` (a handler either returns or raises an
exception carrying a message).
-/

/-- Mirrors `TierLimits` in tiers.py (`-1` means unlimited, hence `Int`). -/
structure TierLimits where
  max_users : Int
  storage_mb : Int
  max_sessions : Int
deriving DecidableEq, Repr

/-- Mirrors `TierInfra` in tiers.py. -/
structure TierInfra where
  storage : String
  database : String
  custom_domain : Bool := false
deriving DecidableEq, Repr

/-- Mirrors `TierConfig` in tiers.py. -/
structure TierConfig where
  id : String
  display_name : String
  limits : TierLimits
  features : List String
  infra : TierInfra
deriving DecidableEq, Repr

/-- The `"starter"` entry of `TENANT_TIERS` in tiers.py. -/
def starterTier : TierConfig :=
  { id := "starter"
    display_name := "Starter"
    limits := { max_users := 10, storage_mb := 1024, max_sessions := 100 }
    features := ["basic_analytics"]
    infra := { storage := "shared", database := "shared" } }

/-- The `"pro"` entry of `TENANT_TIERS` in tiers.py. -/
def proTier : TierConfig :=
  { id := "pro"
    display_name := "Pro"
    limits := { max_users := 100, storage_mb := 10240, max_sessions := 1000 }
    features := ["basic_analytics", "advanced_analytics", "api_access"]
    infra := { storage := "dedicated", database := "dedicated" } }

/-- The `"enterprise"` entry of `TENANT_TIERS` in tiers.py. -/
def enterpriseTier : TierConfig :=
  { id := "enterprise"
    display_name := "Enterprise"
    limits := { max_users := -1, storage_mb := 102400, max_sessions := -1 }
    features := ["basic_analytics", "advanced_analytics", "api_access",
                 "sso", "custom_domain", "sla"]
    infra := { storage := "dedicated", database := "dedicated", custom_domain := true } }

/-- Mirrors the `TENANT_TIERS` dict in tiers.py (insertion-ordered mapping). -/
def TENANT_TIERS : List (String × TierConfig) :=
  [("starter", starterTier), ("pro", proTier), ("enterprise", enterpriseTier)]

/-- Mirrors `ProvisioningStep` in tiers.py. -/
structure ProvisioningStep where
  id : String
  name : String
  description : String
  required_infra : Option String := none
  required_feature : Option String := none
deriving DecidableEq, Repr

/-- Mirrors the fixed, ordered `PROVISIONING_STEPS` master list in tiers.py. -/
def PROVISIONING_STEPS : List ProvisioningStep :=
  [ { id := "create_record", name := "Create Tenant Record",
      description := "Creating tenant database record" },
    { id := "provision_storage", name := "Provision Storage",
      description := "Setting up tenant storage" },
    { id := "provision_database", name := "Provision Database",
      description := "Setting up tenant database", required_infra := some "dedicated" },
    { id := "update_bindings", name := "Update Worker Bindings",
      description := "Configuring worker bindings", required_infra := some "dedicated" },
    { id := "deploy_worker", name := "Deploy Worker",
      description := "Deploying updated worker", required_infra := some "dedicated" },
    { id := "initialize_storage", name := "Initialize Storage",
      description := "Creating storage structure" },
    { id := "create_roles", name := "Create Default Roles",
      description := "Setting up default roles" },
    { id := "configure_auth", name := "Configure Authentication",
      description := "Setting up authentication" },
    { id := "apply_limits", name := "Apply Tier Limits",
      description := "Configuring resource limits" },
    { id := "configure_domain", name := "Configure Custom Domain",
      description := "Setting up custom domain", required_feature := some "custom_domain" },
    { id := "store_config", name := "Store Configuration",
      description := "Saving tenant configuration" },
    { id := "verify_connectivity", name := "Verify Connectivity",
      description := "Testing tenant access" },
    { id := "finalize", name := "Finalize Setup",
      description := "Completing tenant setup" } ]

/-- Mirrors `get_tier` in tiers.py (`TENANT_TIERS.get(tier_id)`). -/
def get_tier (tier_id : String) : Option TierConfig :=
  (TENANT_TIERS.find? (fun p => p.1 == tier_id)).map (·.2)

/-- Mirrors `list_tiers` in tiers.py. -/
def list_tiers : List TierConfig := TENANT_TIERS.map (·.2)

/-- The first `continue` condition of the loop in `get_provisioning_steps`
(tiers.py): the step requires dedicated infra and the tier has neither
dedicated storage nor a dedicated database. -/
def infraSkip (tier : TierConfig) (step : ProvisioningStep) : Bool :=
  step.required_infra == some "dedicated" &&
    (!(tier.infra.storage == "dedicated") && !(tier.infra.database == "dedicated"))

/-- The second `continue` condition of the loop in `get_provisioning_steps`
(tiers.py): `if step.required_feature:` is Python truthiness, so `None` and
the empty string are both falsy. -/
def featureSkip (tier : TierConfig) (step : ProvisioningStep) : Bool :=
  match step.required_feature with
  | none => false
  | some f => !(f == "") && !(tier.features.contains f)

/-- Mirrors `get_provisioning_steps` in tiers.py: iterate the master list in
order and drop a step when either `continue` condition fires. -/
def get_provisioning_steps (tier : TierConfig) : List ProvisioningStep :=
  PROVISIONING_STEPS.filter (fun step => !infraSkip tier step && !featureSkip tier step)

/-- Mirrors `get_tier_limits` in tiers.py (falls back to starter, then adds
the fixed platform-wide limits). -/
def get_tier_limits (tier_id : String) : List (String × Int) :=
  let tier := (get_tier tier_id).getD starterTier
  [("max_users", tier.limits.max_users),
   ("storage_mb", tier.limits.storage_mb),
   ("max_sessions", tier.limits.max_sessions),
   ("max_skills", 100),
   ("max_connectors", 50),
   ("sandbox_timeout_seconds", 30),
   ("sandbox_memory_mb", 256)]

/-- Mirrors the `ProvisioningJob` dataclass (tenant.py), i.e. one row of the
`provisioning_jobs` table. -/
structure ProvisioningJob where
  id : String
  tenant_id : String
  tenant_name : String
  tier : String
  status : String
  current_step : Nat
  total_steps : Nat
  steps_completed : List String
  steps_skipped : List String
  current_step_name : Option String
  error : Option String
  created_at : Nat
  updated_at : Nat
  completed_at : Option Nat
deriving DecidableEq, Repr

/-- Mirrors the `ProvisioningEvent` dataclass (tenant.py). -/
structure ProvisioningEvent where
  type : String
  step_id : Option String := none
  step_name : Option String := none
  step_number : Option Nat := none
  reason : Option String := none
  tenant_id : Option String := none
  error : Option String := none
deriving DecidableEq, Repr

/-- One call to `update_provisioning_job` (tenant.py): each field is a
keyword argument, `none` meaning "not supplied, leave the column alone". -/
structure JobUpdate where
  status : Option String := none
  current_step : Option Nat := none
  current_step_name : Option String := none
  steps_completed : Option (List String) := none
  steps_skipped : Option (List String) := none
  error : Option String := none
  completed_at : Option Nat := none
deriving DecidableEq, Repr

/-- Mirrors the effect of `update_provisioning_job` (tenant.py) on the
matching row: `updated_at` is always written; every other column is written
exactly when the corresponding argument is not `None`. -/
def update_provisioning_job (j : ProvisioningJob) (u : JobUpdate) (now : Nat) :
    ProvisioningJob :=
  { j with
    updated_at := now
    status := u.status.getD j.status
    current_step := u.current_step.getD j.current_step
    current_step_name := u.current_step_name.or j.current_step_name
    steps_completed := u.steps_completed.getD j.steps_completed
    steps_skipped := u.steps_skipped.getD j.steps_skipped
    error := u.error.or j.error
    completed_at := u.completed_at.or j.completed_at }

@[simp] theorem update_job_id (j : ProvisioningJob) (u : JobUpdate) (now : Nat) :
    (update_provisioning_job j u now).id = j.id := rfl

@[simp] theorem update_job_tenant_id (j : ProvisioningJob) (u : JobUpdate) (now : Nat) :
    (update_provisioning_job j u now).tenant_id = j.tenant_id := rfl

@[simp] theorem update_job_tenant_name (j : ProvisioningJob) (u : JobUpdate) (now : Nat) :
    (update_provisioning_job j u now).tenant_name = j.tenant_name := rfl

@[simp] theorem update_job_tier (j : ProvisioningJob) (u : JobUpdate) (now : Nat) :
    (update_provisioning_job j u now).tier = j.tier := rfl

@[simp] theorem update_job_status (j : ProvisioningJob) (u : JobUpdate) (now : Nat) :
    (update_provisioning_job j u now).status = u.status.getD j.status := rfl

@[simp] theorem update_job_current_step (j : ProvisioningJob) (u : JobUpdate) (now : Nat) :
    (update_provisioning_job j u now).current_step = u.current_step.getD j.current_step := rfl

@[simp] theorem update_job_total_steps (j : ProvisioningJob) (u : JobUpdate) (now : Nat) :
    (update_provisioning_job j u now).total_steps = j.total_steps := rfl

@[simp] theorem update_job_steps_completed (j : ProvisioningJob) (u : JobUpdate) (now : Nat) :
    (update_provisioning_job j u now).steps_completed
      = u.steps_completed.getD j.steps_completed := rfl

@[simp] theorem update_job_steps_skipped (j : ProvisioningJob) (u : JobUpdate) (now : Nat) :
    (update_provisioning_job j u now).steps_skipped
      = u.steps_skipped.getD j.steps_skipped := rfl

@[simp] theorem update_job_current_step_name (j : ProvisioningJob) (u : JobUpdate) (now : Nat) :
    (update_provisioning_job j u now).current_step_name
      = u.current_step_name.or j.current_step_name := rfl

@[simp] theorem update_job_error (j : ProvisioningJob) (u : JobUpdate) (now : Nat) :
    (update_provisioning_job j u now).error = u.error.or j.error := rfl

@[simp] theorem update_job_created_at (j : ProvisioningJob) (u : JobUpdate) (now : Nat) :
    (update_provisioning_job j u now).created_at = j.created_at := rfl

@[simp] theorem update_job_updated_at (j : ProvisioningJob) (u : JobUpdate) (now : Nat) :
    (update_provisioning_job j u now).updated_at = now := rfl

@[simp] theorem update_job_completed_at (j : ProvisioningJob) (u : JobUpdate) (now : Nat) :
    (update_provisioning_job j u now).completed_at
      = u.completed_at.or j.completed_at := rfl

/-- Applies a sequence of `update_provisioning_job` calls to a job row. -/
def applyUpdates (j : ProvisioningJob) (us : List JobUpdate) (now : Nat) :
    ProvisioningJob :=
  us.foldl (fun a u => update_provisioning_job a u now) j

/-- The `provisioning_jobs` table: rows keyed by job id. -/
def JobStore := List (String × ProvisioningJob)

/-- Mirrors `get_provisioning_job` (tenant.py): SELECT by primary key. -/
def lookupJob (store : JobStore) (job_id : String) : Option ProvisioningJob :=
  (List.find? (fun p => p.1 == job_id) store).map (·.2)

/-- INSERT of a fresh job row. -/
def insertJob (store : JobStore) (job_id : String) (j : ProvisioningJob) : JobStore :=
  (job_id, j) :: store

/-- Mirrors `create_provisioning_job` (tenant.py).  The generated UUIDs and
`time.time()` are injected as `job_id` and `now`; `settings` is accepted and,
as in the source, not used for the job row. -/
def create_provisioning_job (store : JobStore) (name : String) (tier : String)
    (tenant_id : String) (settings : List (String × String)) (job_id : String)
    (now : Nat) : ProvisioningJob × JobStore :=
  let _ := settings
  let resolved : String × TierConfig :=
    match get_tier tier with
    | some c => (tier, c)
    | none => ("starter", starterTier)
  let steps := get_provisioning_steps resolved.2
  let job : ProvisioningJob :=
    { id := job_id
      tenant_id := tenant_id
      tenant_name := name
      tier := resolved.1
      status := "pending"
      current_step := 0
      total_steps := steps.length
      steps_completed := []
      steps_skipped := []
      current_step_name := none
      error := none
      created_at := now
      updated_at := now
      completed_at := none }
  (job, insertJob store job_id job)

/-- The skip decision of the engine loop in `provision_tenant_with_progress`
(tenant.py): returns the `skip_reason` when `should_skip` ends up true (the
feature check overwrites the infra reason, as in the source). -/
def engineSkipReason (tier : TierConfig) (step : ProvisioningStep) : Option String :=
  let q := String.singleton (Char.ofNat 39)
  let r : Option String :=
    if infraSkip tier step then
      some ("Not required for " ++ tier.display_name ++ " tier")
    else none
  match step.required_feature with
  | some f =>
      if !(f == "") && !(tier.features.contains f) then
        some ("Feature " ++ q ++ f ++ q ++ " not included in " ++ tier.display_name ++ " tier")
      else r
  | none => r

/-- The observable outcome of one engine run: the yielded events, the
`update_provisioning_job` calls in order, and the step ids dispatched to
`_execute_provisioning_step`. -/
structure RunResult where
  events : List ProvisioningEvent
  updates : List JobUpdate
  executed : List String
deriving Repr

/-- The `for step in steps` loop of `provision_tenant_with_progress`
(tenant.py), from the state where `step_number = n` steps have been
processed with accumulators `completed` and `skipped`.  The handler oracle
returns `Except.error msg` when the handler raises an exception whose
`str()` is `msg`; the `except` block then persists the failure, yields the
`failed` event and stops. -/
def runSteps (handlers : String → Except String Unit) (tier : TierConfig)
    (tenant_id : String) (now : Nat) :
    List ProvisioningStep → Nat → List String → List String → RunResult
  | [], _, _, _ =>
      { events := [{ type := "completed", tenant_id := some tenant_id }]
        updates := [{ status := some "completed", completed_at := some now }]
        executed := [] }
  | step :: rest, n, completed, skipped =>
      let stepNum := n + 1
      match engineSkipReason tier step with
      | some reason =>
          let skipped' := skipped ++ [step.id]
          let r := runSteps handlers tier tenant_id now rest stepNum completed skipped'
          { events := { type := "step_skipped", step_id := some step.id,
                        step_name := some step.name, step_number := some stepNum,
                        reason := some reason } :: r.events
            updates := { current_step := some stepNum,
                         current_step_name := some step.name,
                         steps_skipped := some skipped' } :: r.updates
            executed := r.executed }
      | none =>
          match handlers step.id with
          | Except.ok _ =>
              let completed' := completed ++ [step.id]
              let r := runSteps handlers tier tenant_id now rest stepNum completed' skipped
              { events := { type := "step_started", step_id := some step.id,
                            step_name := some step.name, step_number := some stepNum } ::
                          { type := "step_completed", step_id := some step.id,
                            step_number := some stepNum } :: r.events
                updates := { current_step := some stepNum,
                             current_step_name := some step.name } ::
                           { steps_completed := some completed' } :: r.updates
                executed := step.id :: r.executed }
          | Except.error msg =>
              { events := [{ type := "step_started", step_id := some step.id,
                             step_name := some step.name, step_number := some stepNum },
                           { type := "failed", error := some msg }]
                updates := [{ current_step := some stepNum,
                              current_step_name := some step.name },
                            { status := some "failed", error := some msg,
                              completed_at := some now }]
                executed := [step.id] }

/-- Mirrors `provision_tenant_with_progress` (tenant.py): load the job (a
missing job yields a single `failed` event and performs no write), resolve
the tier with the starter fallback, filter the steps, persist
`status=running`, then run the loop. -/
def provision_tenant_with_progress (store : JobStore) (job_id : String)
    (handlers : String → Except String Unit) (now : Nat) : RunResult :=
  match lookupJob store job_id with
  | none =>
      { events := [{ type := "failed", error := some "Job not found" }]
        updates := []
        executed := [] }
  | some job =>
      let tier_config := (get_tier job.tier).getD starterTier
      let steps := get_provisioning_steps tier_config
      let r := runSteps handlers tier_config job.tenant_id now steps 0 [] []
      { events := r.events
        updates := { status := some "running" } :: r.updates
        executed := r.executed }

/-- Mirrors the terminal-replay branch of `admin_provision_stream`
(routes.py): `none` models the 404, a terminal job yields its single final
event, otherwise the endpoint drives `provision_tenant_with_progress` and
forwards its events. -/
def admin_provision_stream (store : JobStore) (job_id : String)
    (handlers : String → Except String Unit) (now : Nat) :
    Option (List ProvisioningEvent) :=
  match lookupJob store job_id with
  | none => none
  | some job =>
      if job.status == "completed" then
        some [{ type := "completed", tenant_id := some job.tenant_id }]
      else if job.status == "failed" then
        some [{ type := "failed", error := job.error }]
      else
        some (provision_tenant_with_progress store job_id handlers now).events

/-- Mirrors the `TenantConfig` dataclass (tenant.py); the JSON maps are
modelled as association lists. -/
structure TenantConfig where
  tenant_id : String
  name : String
  created_at : Nat
  updated_at : Nat
  status : String
  tier : String := "starter"
  settings : List (String × String) := []
  limits : List (String × Int) := []
  metadata : List (String × String) := []
deriving DecidableEq, Repr

/-- Mirrors the `TenantProvisionResult` dataclass (tenant.py). -/
structure TenantProvisionResult where
  tenant_id : String
  config : TenantConfig
  success : Bool
  message : String
  provisioned_at : Nat
deriving DecidableEq, Repr

/-- One row of the `roles` table as written by `_init_tenant_roles`. -/
structure RoleRow where
  id : String
  tenant_id : String
  name : String
  description : String
deriving DecidableEq, Repr

/-- The persistent state touched by `create_tenant`: the `tenants` table,
the `roles` table, and the file store (modelled as the set of keys written). -/
structure TenantState where
  tenants : List (String × TenantConfig)
  roles : List RoleRow
  files : List String
deriving DecidableEq, Repr

/-- Mirrors `get_tenant` (tenant.py): SELECT by primary key. -/
def lookupTenant (st : TenantState) (tenant_id : String) : Option TenantConfig :=
  (List.find? (fun p => p.1 == tenant_id) st.tenants).map (·.2)

/-- Python dict merge as in `final_limits = dict(defaults, **overrides)`
spelled with `**`: keys of the second mapping override the first. -/
def dictMerge {α : Type} (base overrides : List (String × α)) : List (String × α) :=
  (base.filter (fun p => !(overrides.map (·.1)).contains p.1)) ++ overrides

/-- Mirrors `_default_settings` (tenant.py). -/
def default_settings : List (String × String) := [("auth_mode", "builtin")]

/-- Mirrors `_create_tenant_directories` (tenant.py): three `.gitkeep` puts. -/
def create_tenant_directories (st : TenantState) (tenant_id : String) : TenantState :=
  { st with files :=
      st.files ++
        ["tenants/" ++ tenant_id ++ "/skills/.gitkeep",
         "tenants/" ++ tenant_id ++ "/connectors/.gitkeep",
         "tenants/" ++ tenant_id ++ "/transcripts/.gitkeep"] }

/-- Mirrors `_init_tenant_roles` (tenant.py): `INSERT OR IGNORE` of the
three default roles. -/
def init_tenant_roles (st : TenantState) (tenant_id : String) : TenantState :=
  let mkRole := fun (role_name description : String) =>
    { id := "role-" ++ tenant_id ++ "-" ++ role_name
      tenant_id := tenant_id
      name := role_name
      description := description : RoleRow }
  let insertIgnore := fun (rs : List RoleRow) (r : RoleRow) =>
    if rs.any (fun x => x.id == r.id) then rs else rs ++ [r]
  let rs := insertIgnore st.roles (mkRole "admin" "Full access to all resources")
  let rs := insertIgnore rs (mkRole "user" "Standard user access")
  let rs := insertIgnore rs (mkRole "service" "Service account access")
  { st with roles := rs }

/-- Mirrors `create_tenant` (tenant.py): the existence check runs before any
write; on conflict the existing config is returned with `success=False` and
the state is untouched.  `tenant_id` and `now` are the injected UUID and
clock. -/
def create_tenant (st : TenantState) (name : String) (tenant_id : String)
    (tier : String) (settings : Option (List (String × String)))
    (limits : Option (List (String × Int)))
    (metadata : Option (List (String × String))) (now : Nat) :
    TenantProvisionResult × TenantState :=
  match lookupTenant st tenant_id with
  | some existing =>
      ({ tenant_id := tenant_id
         config := existing
         success := false
         message := "Tenant already exists: " ++ tenant_id
         provisioned_at := now }, st)
  | none =>
      let tier := if (TENANT_TIERS.map (·.1)).contains tier then tier else "starter"
      let final_limits := dictMerge (get_tier_limits tier) (limits.getD [])
      let final_settings := dictMerge default_settings (settings.getD [])
      let final_metadata := metadata.getD []
      let config : TenantConfig :=
        { tenant_id := tenant_id
          name := name
          created_at := now
          updated_at := now
          status := "active"
          tier := tier
          settings := final_settings
          limits := final_limits
          metadata := final_metadata }
      let st := { st with tenants := st.tenants ++ [(tenant_id, config)] }
      let st := create_tenant_directories st tenant_id
      let st := init_tenant_roles st tenant_id
      ({ tenant_id := tenant_id
         config := config
         success := true
         message := "Tenant provisioned successfully: " ++ tenant_id
         provisioned_at := now }, st)

/-- The `current_step` values written by a sequence of job updates, in
write order (updates not supplying `current_step` leave it unchanged). -/
def currentStepWrites (us : List JobUpdate) : List Nat :=
  us.filterMap (·.current_step)

/-- A list of naturals is non-decreasing from each element to the next. -/
def nonDecreasingB : List Nat → Bool
  | [] => true
  | [_] => true
  | a :: b :: rest => decide (a ≤ b) && nonDecreasingB (b :: rest)

/-- An interleaving of two write sequences chosen by a schedule (`true`
takes from the first sequence); once the schedule runs out the remainders
are appended. -/
def interleave {α : Type} : List Bool → List α → List α → List α
  | [], xs, ys => xs ++ ys
  | _, [], ys => ys
  | _ :: _, x :: xs, [] => x :: xs
  | true :: s, x :: xs, ys => x :: interleave s xs ys
  | false :: s, xs, y :: ys => y :: interleave s xs ys

/-- The decidable form of the job-row invariant of the spec:
`len(steps_completed) + len(steps_skipped) ≤ current_step ≤ total_steps`,
a completed job accounts for every step, and `error` is non-null exactly on
a failed job. -/
def jobInvB (j : ProvisioningJob) : Bool :=
  decide (j.steps_completed.length + j.steps_skipped.length ≤ j.current_step) &&
  decide (j.current_step ≤ j.total_steps) &&
  (if j.status == "completed" then
    decide (j.steps_completed.length + j.steps_skipped.length = j.total_steps)
  else true) &&
  (j.error.isSome == (j.status == "failed"))

/-- C6: `create_provisioning_job` resolves the tier (substituting starter
when the tier id is not in the catalog) and inserts and returns a job with
status `pending`, `current_step = 0`, empty completed/skipped lists, and
`total_steps` equal to the length of `get_provisioning_steps` on the
resolved tier. -/
theorem C6_create_provisioning_job (store : JobStore) (name tier tenant_id : String)
    (settings : List (String × String)) (job_id : String) (now : Nat) :
    (create_provisioning_job store name tier tenant_id settings job_id now).1.status
        = "pending" ∧
    (create_provisioning_job store name tier tenant_id settings job_id now).1.current_step
        = 0 ∧
    (create_provisioning_job store name tier tenant_id settings job_id now).1.steps_completed
        = [] ∧
    (create_provisioning_job store name tier tenant_id settings job_id now).1.steps_skipped
        = [] ∧
    (create_provisioning_job store name tier tenant_id settings job_id now).1.total_steps
        = (get_provisioning_steps ((get_tier tier).getD starterTier)).length ∧
    (create_provisioning_job store name tier tenant_id settings job_id now).1.tier
        = (if (get_tier tier).isSome then tier else "starter") ∧
    lookupJob (create_provisioning_job store name tier tenant_id settings job_id now).2
        job_id
      = some (create_provisioning_job store name tier tenant_id settings job_id now).1 := by
  cases h : get_tier tier <;>
    simp [create_provisioning_job, h, lookupJob, insertJob, List.find?]

/-- C8: `update_provisioning_job` writes exactly the supplied (non-`None`)
fields plus `updated_at`; the identity, name, tier, `total_steps`,
`created_at` and every unsupplied progress field of the row are unchanged. -/
theorem C8_update_frame (j : ProvisioningJob) (u : JobUpdate) (now : Nat) :
    (update_provisioning_job j u now).id = j.id ∧
    (update_provisioning_job j u now).tenant_id = j.tenant_id ∧
    (update_provisioning_job j u now).tenant_name = j.tenant_name ∧
    (update_provisioning_job j u now).tier = j.tier ∧
    (update_provisioning_job j u now).total_steps = j.total_steps ∧
    (update_provisioning_job j u now).created_at = j.created_at ∧
    (update_provisioning_job j u now).updated_at = now ∧
    (update_provisioning_job j u now).status
      = (match u.status with | some v => v | none => j.status) ∧
    (update_provisioning_job j u now).current_step
      = (match u.current_step with | some v => v | none => j.current_step) ∧
    (update_provisioning_job j u now).current_step_name
      = (match u.current_step_name with | some v => some v | none => j.current_step_name) ∧
    (update_provisioning_job j u now).steps_completed
      = (match u.steps_completed with | some v => v | none => j.steps_completed) ∧
    (update_provisioning_job j u now).steps_skipped
      = (match u.steps_skipped with | some v => v | none => j.steps_skipped) ∧
    (update_provisioning_job j u now).error
      = (match u.error with | some v => some v | none => j.error) ∧
    (update_provisioning_job j u now).completed_at
      = (match u.completed_at with | some v => some v | none => j.completed_at) := by
  refine ⟨rfl, rfl, rfl, rfl, rfl, rfl, rfl, ?_, ?_, ?_, ?_, ?_, ?_, ?_⟩ <;>
    simp [update_provisioning_job] <;>
    first
      | (cases u.status <;> rfl)
      | (cases u.current_step <;> rfl)
      | (cases u.current_step_name <;> rfl)
      | (cases u.steps_completed <;> rfl)
      | (cases u.steps_skipped <;> rfl)
      | (cases u.error <;> rfl)
      | (cases u.completed_at <;> rfl)

/-- C10: `create_tenant` on an already-existing tenant id returns the
existing configuration with `success = false` and leaves the tenants table,
the roles table and the file store untouched. -/
theorem C10_create_tenant_conflict (st : TenantState) (name tenant_id tier : String)
    (settings : Option (List (String × String)))
    (limits : Option (List (String × Int)))
    (metadata : Option (List (String × String))) (now : Nat) (cfg : TenantConfig)
    (h : lookupTenant st tenant_id = some cfg) :
    create_tenant st name tenant_id tier settings limits metadata now =
      ({ tenant_id := tenant_id
         config := cfg
         success := false
         message := "Tenant already exists: " ++ tenant_id
         provisioned_at := now }, st) := by
  simp [create_tenant, h]

/-- Witness for C10: a state holding tenant `t1` is returned unchanged with
`success = false` and the stored configuration. -/
theorem C10_create_tenant_conflict_witness :
    let cfg : TenantConfig :=
      { tenant_id := "t1", name := "Acme", created_at := 0, updated_at := 0,
        status := "active" }
    let st : TenantState := { tenants := [("t1", cfg)], roles := [], files := [] }
    create_tenant st "Other" "t1" "pro" none none none 7 =
      ({ tenant_id := "t1"
         config := cfg
         success := false
         message := "Tenant already exists: t1"
         provisioned_at := 7 }, st) :=
  C10_create_tenant_conflict _ "Other" "t1" "pro" none none none 7 _ (by decide)

/-- C5: streaming a job whose persisted status is terminal emits exactly the
single corresponding terminal event (`completed` with the tenant id, or
`failed` with the stored error) and no step events. -/
theorem C5_stream_terminal (store : JobStore) (job_id : String)
    (handlers : String → Except String Unit) (now : Nat) (job : ProvisioningJob)
    (hjob : lookupJob store job_id = some job)
    (hterm : job.status = "completed" ∨ job.status = "failed") :
    admin_provision_stream store job_id handlers now =
      some [if job.status == "completed" then
              { type := "completed", tenant_id := some job.tenant_id }
            else { type := "failed", error := job.error }] := by
  rcases hterm with h | h <;> simp [admin_provision_stream, hjob, h]

/-- Witness for C5: a job persisted as `failed` streams exactly one `failed`
event carrying the stored error. -/
theorem C5_stream_terminal_witness :
    let job : ProvisioningJob :=
      { id := "j1", tenant_id := "t1", tenant_name := "Acme", tier := "starter",
        status := "failed", current_step := 3, total_steps := 9,
        steps_completed := ["create_record", "provision_storage"],
        steps_skipped := [], current_step_name := some "Initialize Storage",
        error := some "boom", created_at := 0, updated_at := 1,
        completed_at := some 1 }
    admin_provision_stream [("j1", job)] "j1" (fun _ => Except.ok ()) 5 =
      some [{ type := "failed", error := some "boom" }] := by
  have h := C5_stream_terminal [("j1",
      { id := "j1", tenant_id := "t1", tenant_name := "Acme", tier := "starter",
        status := "failed", current_step := 3, total_steps := 9,
        steps_completed := ["create_record", "provision_storage"],
        steps_skipped := [], current_step_name := some "Initialize Storage",
        error := some "boom", created_at := 0, updated_at := 1,
        completed_at := some 1 })] "j1" (fun _ => Except.ok ()) 5
      { id := "j1", tenant_id := "t1", tenant_name := "Acme", tier := "starter",
        status := "failed", current_step := 3, total_steps := 9,
        steps_completed := ["create_record", "provision_storage"],
        steps_skipped := [], current_step_name := some "Initialize Storage",
        error := some "boom", created_at := 0, updated_at := 1,
        completed_at := some 1 } (by decide) (Or.inr rfl)
  simpa using h

/-- Every step of the master list carries either no `required_infra` or
`"dedicated"`, and either no `required_feature` or `"custom_domain"`. -/
theorem master_steps_shape :
    ∀ s ∈ PROVISIONING_STEPS,
      (s.required_infra = none ∨ s.required_infra = some "dedicated") ∧
      (s.required_feature = none ∨ s.required_feature = some "custom_domain") := by
  decide

/-- C3: for every tier configuration, `get_provisioning_steps` is the
subsequence of the fixed master list, in master order, keeping a step iff
its infra requirement (if any) is met by a dedicated storage or database and
its feature requirement (if any) is in the tier feature set; and the
function is pure, so two calls on the same tier agree. -/
theorem C3_get_provisioning_steps (tier : TierConfig) :
    (get_provisioning_steps tier).Sublist PROVISIONING_STEPS ∧
    (∀ s ∈ PROVISIONING_STEPS,
      (s ∈ get_provisioning_steps tier ↔
        ((s.required_infra = none ∨ tier.infra.storage = "dedicated" ∨
            tier.infra.database = "dedicated") ∧
         (s.required_feature = none ∨
            ∃ f, s.required_feature = some f ∧ f ∈ tier.features)))) ∧
    get_provisioning_steps tier = get_provisioning_steps tier := by
  refine ⟨List.filter_sublist _, ?_, rfl⟩
  intro s hs
  obtain ⟨hinfra, hfeat⟩ := master_steps_shape s hs
  rw [get_provisioning_steps, List.mem_filter]
  rcases hinfra with h1 | h1 <;> rcases hfeat with h2 | h2 <;>
    simp [hs, infraSkip, featureSkip, h1, h2, List.contains, List.elem_eq_mem]

/-- Every job state produced while the engine loop runs from a consistent
intermediate state satisfies the job-row invariant: the scan of the issued
updates over the current row stays within `jobInvB`. -/
theorem runSteps_inv (handlers : String → Except String Unit) (tier : TierConfig)
    (tenant_id : String) (now : Nat) :
    ∀ (steps : List ProvisioningStep) (n : Nat) (completed skipped : List String)
      (j : ProvisioningJob),
      j.status = "running" → j.error = none →
      j.current_step = n → j.steps_completed = completed →
      j.steps_skipped = skipped →
      completed.length + skipped.length = n →
      j.total_steps = n + steps.length →
      (List.scanl (fun a u => update_provisioning_job a u now) j
        (runSteps handlers tier tenant_id now steps n completed skipped).updates).all
        jobInvB = true := by
  intro steps
  induction steps with
  | nil =>
      intro n completed skipped j hstat herr hcs hco hsk hsum htot
      simp only [List.length_nil, Nat.add_zero] at htot
      simp only [runSteps, List.scanl_cons, List.scanl_nil, List.all_append,
        List.all_cons, List.all_nil, Bool.and_true, Bool.and_eq_true]
      constructor
      · simp [jobInvB, hstat, herr, hcs, hco, hsk, hsum, htot]
      · simp [jobInvB, hstat, herr, hcs, hco, hsk, hsum, htot]
  | cons step rest ih =>
      intro n completed skipped j hstat herr hcs hco hsk hsum htot
      simp only [List.length_cons] at htot
      have hj : jobInvB j = true := by
        simp [jobInvB, hstat, herr, hcs, hco, hsk, hsum, htot]
      cases hskip : engineSkipReason tier step with
      | some reason =>
          simp only [runSteps, hskip, List.scanl_cons, List.singleton_append,
            List.all_cons, Bool.and_eq_true]
          refine ⟨hj, ?_⟩
          exact ih (n + 1) completed (skipped ++ [step.id]) _
            (by simp [hstat])
            (by simp [herr])
            (by simp)
            (by simp [hco])
            (by simp)
            (by simp only [List.length_append, List.length_cons, List.length_nil]
                omega)
            (by simp only [update_job_total_steps]; omega)
      | none =>
          cases hh : handlers step.id with
          | ok u =>
              simp only [runSteps, hskip, hh, List.scanl_cons,
                List.singleton_append, List.all_cons, Bool.and_eq_true]
              refine ⟨hj, ?_, ?_⟩
              · simp [jobInvB, hstat, herr, hcs, hco, hsk, hsum, htot]
              · exact ih (n + 1) (completed ++ [step.id]) skipped _
                  (by simp [hstat])
                  (by simp [herr])
                  (by simp)
                  (by simp)
                  (by simp [hsk])
                  (by simp only [List.length_append, List.length_cons,
                        List.length_nil]
                      omega)
                  (by simp only [update_job_total_steps]; omega)
          | error msg =>
              simp only [runSteps, hskip, hh, List.scanl_cons,
                List.singleton_append, List.scanl_nil, List.all_append,
                List.all_cons, List.all_nil, Bool.and_true, Bool.and_eq_true]
              refine ⟨hj, ?_, ?_⟩
              · simp [jobInvB, hstat, herr, hcs, hco, hsk, hsum, htot]
              · simp [jobInvB, hstat, herr, hcs, hco, hsk, hsum, htot]

/-- Running the engine on a store holding a freshly created (pending, empty)
job keeps every persisted job state inside the job-row invariant. -/
theorem run_from_created (store : JobStore) (job : ProvisioningJob)
    (job_id : String) (handlers : String → Except String Unit) (now2 : Nat)
    (hlook : lookupJob store job_id = some job)
    (hstat : job.status = "pending") (herr : job.error = none)
    (hcs : job.current_step = 0) (hco : job.steps_completed = [])
    (hsk : job.steps_skipped = [])
    (htot : job.total_steps
      = (get_provisioning_steps ((get_tier job.tier).getD starterTier)).length) :
    (List.scanl (fun a u => update_provisioning_job a u now2) job
      (provision_tenant_with_progress store job_id handlers now2).updates).all
      jobInvB = true := by
  simp only [provision_tenant_with_progress, hlook, List.scanl_cons,
    List.singleton_append, List.all_cons, Bool.and_eq_true]
  refine ⟨by simp [jobInvB, hstat, herr, hcs, hco, hsk, htot], ?_⟩
  exact runSteps_inv handlers _ job.tenant_id now2 _ 0 [] [] _
    (by simp) (by simp [herr]) (by simp [hcs]) (by simp [hco]) (by simp [hsk])
    (by simp) (by simp [htot])

/-- C2: every job state reachable by `create_provisioning_job` followed by
the updates performed by one run of the orchestration engine satisfies
`len(steps_completed) + len(steps_skipped) ≤ current_step ≤ total_steps`;
a `completed` status accounts for every step; and `error` is non-null
exactly when the status is `failed`. -/
theorem C2_job_invariant (store : JobStore) (name tier tenant_id : String)
    (settings : List (String × String)) (job_id : String) (now : Nat)
    (handlers : String → Except String Unit) (now2 : Nat) :
    (List.scanl (fun a u => update_provisioning_job a u now2)
      (create_provisioning_job store name tier tenant_id settings job_id now).1
      (provision_tenant_with_progress
        (create_provisioning_job store name tier tenant_id settings job_id now).2
        job_id handlers now2).updates).all jobInvB = true := by
  apply run_from_created
  · cases h : get_tier tier <;>
      simp [create_provisioning_job, h, lookupJob, insertJob, List.find?]
  · cases h : get_tier tier <;> simp [create_provisioning_job, h]
  · cases h : get_tier tier <;> simp [create_provisioning_job, h]
  · cases h : get_tier tier <;> simp [create_provisioning_job, h]
  · cases h : get_tier tier <;> simp [create_provisioning_job, h]
  · cases h : get_tier tier <;> simp [create_provisioning_job, h]
  · cases h : get_tier tier <;> simp [create_provisioning_job, h] <;> rfl

/-- A step that survived the tier filter never triggers the engine loop's
own skip test: the loop re-checks exactly the filter's conditions. -/
theorem filtered_no_skip (tier : TierConfig) :
    ∀ s ∈ get_provisioning_steps tier, engineSkipReason tier s = none := by
  intro s hs
  rw [get_provisioning_steps, List.mem_filter] at hs
  obtain ⟨-, hcond⟩ := hs
  simp only [Bool.and_eq_true, Bool.not_eq_true'] at hcond
  obtain ⟨hinf, hfeat⟩ := hcond
  cases hrf : s.required_feature with
  | none => simp [engineSkipReason, hrf, hinf]
  | some f =>
      have hf : (!(f == "") && !(tier.features.contains f)) = false := by
        simpa [featureSkip, hrf] using hfeat
      simp [engineSkipReason, hrf, hinf, hf]
      intro hne
      simp [hne] at hf
      simpa [List.contains, List.elem_eq_mem] using hf

/-- On a step list that the filter has already vetted, the engine loop never
emits a `step_skipped` event and never supplies `steps_skipped` to an
update. -/
theorem runSteps_no_skip (handlers : String → Except String Unit)
    (tier : TierConfig) (tenant_id : String) (now : Nat) :
    ∀ (steps : List ProvisioningStep),
      (∀ s ∈ steps, engineSkipReason tier s = none) →
      ∀ (n : Nat) (completed skipped : List String),
        ((runSteps handlers tier tenant_id now steps n completed skipped).events.all
          (fun e => !(e.type == "step_skipped")) = true) ∧
        ((runSteps handlers tier tenant_id now steps n completed skipped).updates.all
          (fun u => u.steps_skipped == none) = true) := by
  intro steps
  induction steps with
  | nil => intro _ n completed skipped; simp [runSteps]
  | cons step rest ih =>
      intro h n completed skipped
      have hhead := h step (by simp)
      have htail : ∀ s ∈ rest, engineSkipReason tier s = none :=
        fun s hs => h s (List.mem_cons_of_mem _ hs)
      cases hh : handlers step.id with
      | ok u =>
          obtain ⟨he, hu⟩ := ih htail (n + 1) (completed ++ [step.id]) skipped
          simp [runSteps, hhead, hh, he, hu]
      | error msg => simp [runSteps, hhead, hh]

/-- Updates that never supply `steps_skipped` leave the row's
`steps_skipped` column untouched. -/
theorem applyUpdates_skipped_frame (now : Nat) :
    ∀ (us : List JobUpdate), us.all (fun u => u.steps_skipped == none) = true →
      ∀ j : ProvisioningJob, (applyUpdates j us now).steps_skipped = j.steps_skipped := by
  intro us
  induction us with
  | nil => intro _ j; rfl
  | cons u rest ih =>
      intro h j
      simp only [List.all_cons, Bool.and_eq_true, beq_iff_eq] at h
      obtain ⟨h1, h2⟩ := h
      show (applyUpdates (update_provisioning_job j u now) rest now).steps_skipped = _
      rw [ih h2]
      simp [h1]

/-- C9: no run of the orchestration engine ever emits a `step_skipped`
event or writes `steps_skipped`: the loop iterates the list already
filtered by `get_provisioning_steps` and its per-step skip test repeats the
filter's conditions, so `steps_skipped` keeps its prior value (empty for a
freshly created job) on every run. -/
theorem C9_skip_unreachable (store : JobStore) (job_id : String)
    (handlers : String → Except String Unit) (now : Nat) :
    ((provision_tenant_with_progress store job_id handlers now).events.all
      (fun e => !(e.type == "step_skipped")) = true) ∧
    ((provision_tenant_with_progress store job_id handlers now).updates.all
      (fun u => u.steps_skipped == none) = true) ∧
    (∀ j : ProvisioningJob,
      (applyUpdates j
        (provision_tenant_with_progress store job_id handlers now).updates
        now).steps_skipped = j.steps_skipped) := by
  cases hlook : lookupJob store job_id with
  | none =>
      refine ⟨?_, ?_, ?_⟩ <;> simp [provision_tenant_with_progress, hlook, applyUpdates]
  | some job =>
      obtain ⟨he, hu⟩ := runSteps_no_skip handlers
        ((get_tier job.tier).getD starterTier) job.tenant_id now
        (get_provisioning_steps ((get_tier job.tier).getD starterTier))
        (filtered_no_skip _) 0 [] []
      have hall : ((provision_tenant_with_progress store job_id handlers now).updates.all
          (fun u => u.steps_skipped == none) = true) := by
        simp [provision_tenant_with_progress, hlook, hu]
      refine ⟨?_, hall, ?_⟩
      · simp [provision_tenant_with_progress, hlook, he]
      · intro j
        exact applyUpdates_skipped_frame now _ hall j

/-- Shape of a run whose step list is an all-applicable prefix of succeeding
steps followed by one whose handler raises: the loop processes exactly the
prefix and the failing step, ends the event stream with a single `failed`
event carrying the exception text, and ends the writes with the `failed`
persistence. -/
theorem runSteps_fail_shape (handlers : String → Except String Unit)
    (tier : TierConfig) (tenant_id : String) (now : Nat) (msg : String)
    (s : ProvisioningStep) (post : List ProvisioningStep)
    (hs_skip : engineSkipReason tier s = none)
    (hs_err : handlers s.id = Except.error msg) :
    ∀ (pre : List ProvisioningStep) (n : Nat) (completed skipped : List String),
      (∀ p ∈ pre, engineSkipReason tier p = none) →
      (∀ p ∈ pre, handlers p.id = Except.ok ()) →
      ∃ es us,
        (runSteps handlers tier tenant_id now (pre ++ s :: post) n completed skipped)
          = { events := es ++ [{ type := "failed", error := some msg }]
              updates := us ++ [{ status := some "failed", error := some msg,
                                  completed_at := some now }]
              executed := pre.map (·.id) ++ [s.id] } ∧
        (∀ e ∈ es, ¬ e.type = "failed") := by
  intro pre
  induction pre with
  | nil =>
      intro n completed skipped _ _
      refine ⟨[{ type := "step_started", step_id := some s.id,
                 step_name := some s.name, step_number := some (n + 1) }],
              [{ current_step := some (n + 1),
                 current_step_name := some s.name }], ?_, ?_⟩
      · simp [runSteps, hs_skip, hs_err]
      · intro e he
        simp only [List.mem_singleton] at he
        subst he
        simp
  | cons p pre' ih =>
      intro n completed skipped hskips hoks
      have hp_skip := hskips p (by simp)
      have hp_ok := hoks p (by simp)
      obtain ⟨es, us, heq, hes⟩ := ih (n + 1) (completed ++ [p.id]) skipped
        (fun q hq => hskips q (List.mem_cons_of_mem _ hq))
        (fun q hq => hoks q (List.mem_cons_of_mem _ hq))
      refine ⟨{ type := "step_started", step_id := some p.id,
                step_name := some p.name, step_number := some (n + 1) } ::
              { type := "step_completed", step_id := some p.id,
                step_number := some (n + 1) } :: es,
              { current_step := some (n + 1), current_step_name := some p.name } ::
              { steps_completed := some (completed ++ [p.id]) } :: us, ?_, ?_⟩
      · simp [runSteps, hp_skip, hp_ok, heq]
      · intro e he
        simp only [List.mem_cons] at he
        rcases he with rfl | rfl | he
        · simp
        · simp
        · exact hes e he

/-- C4: when a step handler raises, the engine catches the exception,
persists the job as `failed` with the exception text and a completion
timestamp, emits exactly one `failed` event (as the last event), and never
dispatches any later step; the run is a total function of its inputs, so no
exception reaches the consumer of the event sequence. -/
theorem C4_handler_failure (store : JobStore) (job_id : String)
    (handlers : String → Except String Unit) (now : Nat) (job : ProvisioningJob)
    (pre : List ProvisioningStep) (s : ProvisioningStep)
    (post : List ProvisioningStep) (msg : String)
    (hlook : lookupJob store job_id = some job)
    (hsteps : get_provisioning_steps ((get_tier job.tier).getD starterTier)
      = pre ++ s :: post)
    (hpre : ∀ p ∈ pre, handlers p.id = Except.ok ())
    (hfail : handlers s.id = Except.error msg) :
    ((applyUpdates job
        (provision_tenant_with_progress store job_id handlers now).updates
        now).status = "failed" ∧
     (applyUpdates job
        (provision_tenant_with_progress store job_id handlers now).updates
        now).error = some msg ∧
     (applyUpdates job
        (provision_tenant_with_progress store job_id handlers now).updates
        now).completed_at = some now) ∧
    ((provision_tenant_with_progress store job_id handlers now).events.filter
      (fun e => e.type == "failed")).length = 1 ∧
    (provision_tenant_with_progress store job_id handlers now).events.getLast?
      = some { type := "failed", error := some msg } ∧
    (provision_tenant_with_progress store job_id handlers now).executed
      = pre.map (·.id) ++ [s.id] := by
  have hskipall := filtered_no_skip ((get_tier job.tier).getD starterTier)
  rw [hsteps] at hskipall
  have hs_skip : engineSkipReason ((get_tier job.tier).getD starterTier) s = none :=
    hskipall s (by simp)
  obtain ⟨es, us, heq, hes⟩ := runSteps_fail_shape handlers
    ((get_tier job.tier).getD starterTier) job.tenant_id now msg s post hs_skip
    hfail pre 0 [] []
    (fun p hp => hskipall p (List.mem_append_left _ hp)) hpre
  have hrun : provision_tenant_with_progress store job_id handlers now
      = { events := es ++ [{ type := "failed", error := some msg }]
          updates := ({ status := some "running" } : JobUpdate) ::
            (us ++ [{ status := some "failed", error := some msg,
                      completed_at := some now }])
          executed := pre.map (·.id) ++ [s.id] } := by
    simp only [provision_tenant_with_progress, hlook]
    rw [hsteps, heq]
  rw [hrun]
  refine ⟨⟨?_, ?_, ?_⟩, ?_, ?_, rfl⟩
  · show (applyUpdates job ((({ status := some "running" } : JobUpdate) :: us)
      ++ [{ status := some "failed", error := some msg,
            completed_at := some now }]) now).status = "failed"
    rw [applyUpdates, List.foldl_append]
    simp
  · show (applyUpdates job ((({ status := some "running" } : JobUpdate) :: us)
      ++ [{ status := some "failed", error := some msg,
            completed_at := some now }]) now).error = some msg
    rw [applyUpdates, List.foldl_append]
    simp
  · show (applyUpdates job ((({ status := some "running" } : JobUpdate) :: us)
      ++ [{ status := some "failed", error := some msg,
            completed_at := some now }]) now).completed_at = some now
    rw [applyUpdates, List.foldl_append]
    simp
  · have hnil : es.filter (fun e => e.type == "failed") = [] :=
      List.filter_eq_nil_iff.mpr (by
        intro e he
        simpa using hes e he)
    simp [List.filter_append, hnil]
  · simp [List.getLast?_concat]

/-- Witness for C4: a starter job whose `create_record` handler raises
`boom` is persisted as failed with that error, the event stream ends with
the single `failed` event, and no later step is dispatched. -/
theorem C4_handler_failure_witness :
    let job := (create_provisioning_job [] "Acme" "starter" "t1" [] "j1" 0).1
    let store := (create_provisioning_job [] "Acme" "starter" "t1" [] "j1" 0).2
    let handlers : String → Except String Unit :=
      fun i => if i == "create_record" then Except.error "boom" else Except.ok ()
    (applyUpdates job
      (provision_tenant_with_progress store "j1" handlers 1).updates 1).status
        = "failed" ∧
    (applyUpdates job
      (provision_tenant_with_progress store "j1" handlers 1).updates 1).error
        = some "boom" ∧
    (applyUpdates job
      (provision_tenant_with_progress store "j1" handlers 1).updates 1).completed_at
        = some 1 ∧
    ((provision_tenant_with_progress store "j1" handlers 1).events.filter
      (fun e => e.type == "failed")).length = 1 ∧
    (provision_tenant_with_progress store "j1" handlers 1).events.getLast?
      = some { type := "failed", error := some "boom" } ∧
    (provision_tenant_with_progress store "j1" handlers 1).executed
      = ["create_record"] := by
  intro job store handlers
  have h := C4_handler_failure store "j1" handlers 1 job []
    { id := "create_record", name := "Create Tenant Record",
      description := "Creating tenant database record" }
    ((get_provisioning_steps starterTier).drop 1) "boom"
    (by decide) (by decide) (by simp) (by rfl)
  obtain ⟨⟨h1, h2, h3⟩, h4, h5, h6⟩ := h
  exact ⟨h1, h2, h3, h4, h5, by simpa using h6⟩

/-- Shape of a run in which every step is applicable and every handler
succeeds: the writes end with the `completed` persistence, no intermediate
write touches `status`, and the dispatched steps are exactly the filtered
list in order. -/
theorem runSteps_ok_shape (handlers : String → Except String Unit)
    (tier : TierConfig) (tenant_id : String) (now : Nat) :
    ∀ (steps : List ProvisioningStep),
      (∀ s ∈ steps, engineSkipReason tier s = none) →
      (∀ s ∈ steps, handlers s.id = Except.ok ()) →
      ∀ (n : Nat) (completed skipped : List String),
        ∃ us,
          (runSteps handlers tier tenant_id now steps n completed skipped).updates
            = us ++ [{ status := some "completed", completed_at := some now }] ∧
          (∀ u ∈ us, u.status = none) ∧
          (runSteps handlers tier tenant_id now steps n completed skipped).executed
            = steps.map (·.id) := by
  intro steps
  induction steps with
  | nil =>
      intro _ _ n completed skipped
      exact ⟨[], by simp [runSteps], by simp, by simp [runSteps]⟩
  | cons step rest ih =>
      intro hskips hoks n completed skipped
      have hstep_skip := hskips step (by simp)
      have hstep_ok := hoks step (by simp)
      obtain ⟨us, hu, hstat, hex⟩ := ih
        (fun q hq => hskips q (List.mem_cons_of_mem _ hq))
        (fun q hq => hoks q (List.mem_cons_of_mem _ hq))
        (n + 1) (completed ++ [step.id]) skipped
      refine ⟨{ current_step := some (n + 1), current_step_name := some step.name } ::
              { steps_completed := some (completed ++ [step.id]) } :: us, ?_, ?_, ?_⟩
      · simp [runSteps, hstep_skip, hstep_ok, hu]
      · intro u hu'
        simp only [List.mem_cons] at hu'
        rcases hu' with rfl | rfl | hu'
        · rfl
        · rfl
        · exact hstat u hu'
      · simp [runSteps, hstep_skip, hstep_ok, hex]

/-- C1 counterexample: a successful engine run on a freshly created
`starter` job ends with status `completed` but with `steps_skipped` empty —
`provision_database` (and the other dedicated-infra or feature-gated steps)
is not recorded as skipped, because the filter already removed it from the
step list. -/
theorem C1_starter_counterexample :
    (applyUpdates (create_provisioning_job [] "Acme" "starter" "t1" [] "j1" 0).1
      (provision_tenant_with_progress
        (create_provisioning_job [] "Acme" "starter" "t1" [] "j1" 0).2 "j1"
        (fun _ => Except.ok ()) 1).updates 1).status = "completed" ∧
    (applyUpdates (create_provisioning_job [] "Acme" "starter" "t1" [] "j1" 0).1
      (provision_tenant_with_progress
        (create_provisioning_job [] "Acme" "starter" "t1" [] "j1" 0).2 "j1"
        (fun _ => Except.ok ()) 1).updates 1).steps_skipped = [] ∧
    ¬ ("provision_database" ∈
      (applyUpdates (create_provisioning_job [] "Acme" "starter" "t1" [] "j1" 0).1
        (provision_tenant_with_progress
          (create_provisioning_job [] "Acme" "starter" "t1" [] "j1" 0).2 "j1"
          (fun _ => Except.ok ()) 1).updates 1).steps_skipped) := by
  decide

/-- C1 (amended): a run of the orchestration engine on a freshly created
`starter`-tier job in which every handler succeeds ends with status
`completed` and with `steps_skipped` empty; the four gated steps
`provision_database`, `update_bindings`, `deploy_worker` and
`configure_domain` are excluded from the filtered step list and never
dispatched. -/
theorem C1_starter_run_amended (store : JobStore) (name tenant_id : String)
    (settings : List (String × String)) (job_id : String) (now now2 : Nat)
    (handlers : String → Except String Unit)
    (hok : ∀ s ∈ get_provisioning_steps starterTier,
      handlers s.id = Except.ok ()) :
    (applyUpdates (create_provisioning_job store name "starter" tenant_id settings
        job_id now).1
      (provision_tenant_with_progress
        (create_provisioning_job store name "starter" tenant_id settings
          job_id now).2 job_id handlers now2).updates now2).status
      = "completed" ∧
    (applyUpdates (create_provisioning_job store name "starter" tenant_id settings
        job_id now).1
      (provision_tenant_with_progress
        (create_provisioning_job store name "starter" tenant_id settings
          job_id now).2 job_id handlers now2).updates now2).steps_skipped
      = [] ∧
    (provision_tenant_with_progress
      (create_provisioning_job store name "starter" tenant_id settings
        job_id now).2 job_id handlers now2).executed
      = (get_provisioning_steps starterTier).map (·.id) ∧
    (get_provisioning_steps starterTier).all (fun s =>
      !(s.id == "provision_database") && !(s.id == "update_bindings") &&
      !(s.id == "deploy_worker") && !(s.id == "configure_domain")) = true := by
  have hlook : lookupJob
      (create_provisioning_job store name "starter" tenant_id settings job_id now).2
      job_id
      = some (create_provisioning_job store name "starter" tenant_id settings
          job_id now).1 := by
    simp [create_provisioning_job, lookupJob, insertJob, List.find?]
  have htier : (create_provisioning_job store name "starter" tenant_id settings
      job_id now).1.tier = "starter" := by
    simp [create_provisioning_job]
    rfl
  obtain ⟨us, hu, hstat, hex⟩ := runSteps_ok_shape handlers starterTier
    (create_provisioning_job store name "starter" tenant_id settings
      job_id now).1.tenant_id now2
    (get_provisioning_steps starterTier) (filtered_no_skip _) hok 0 [] []
  obtain ⟨-, hskips⟩ := runSteps_no_skip handlers starterTier
    (create_provisioning_job store name "starter" tenant_id settings
      job_id now).1.tenant_id now2
    (get_provisioning_steps starterTier) (filtered_no_skip _) 0 [] []
  have hrun : provision_tenant_with_progress
      (create_provisioning_job store name "starter" tenant_id settings job_id now).2
      job_id handlers now2
      = { events := (runSteps handlers starterTier
            (create_provisioning_job store name "starter" tenant_id settings
              job_id now).1.tenant_id now2
            (get_provisioning_steps starterTier) 0 [] []).events
          updates := ({ status := some "running" } : JobUpdate) ::
            (runSteps handlers starterTier
              (create_provisioning_job store name "starter" tenant_id settings
                job_id now).1.tenant_id now2
              (get_provisioning_steps starterTier) 0 [] []).updates
          executed := (runSteps handlers starterTier
            (create_provisioning_job store name "starter" tenant_id settings
              job_id now).1.tenant_id now2
            (get_provisioning_steps starterTier) 0 [] []).executed } := by
    simp only [provision_tenant_with_progress, hlook, htier]
    rfl
  refine ⟨?_, ?_, ?_, by decide⟩
  · rw [hrun]
    dsimp only
    rw [hu]
    show (applyUpdates _ ((({ status := some "running" } : JobUpdate) :: us)
      ++ [{ status := some "completed", completed_at := some now2 }]) now2).status
        = "completed"
    rw [applyUpdates, List.foldl_append]
    simp
  · rw [hrun]
    have hall : ((({ status := some "running" } : JobUpdate) ::
        (runSteps handlers starterTier
          (create_provisioning_job store name "starter" tenant_id settings
            job_id now).1.tenant_id now2
          (get_provisioning_steps starterTier) 0 [] []).updates).all
        (fun u => u.steps_skipped == none) = true) := by
      simp [hskips]
    have := applyUpdates_skipped_frame now2 _ hall
      (create_provisioning_job store name "starter" tenant_id settings job_id now).1
    rw [this]
    simp [create_provisioning_job]
  · rw [hrun]
    exact hex

/-- Witness for the amended C1: a concrete all-success starter run ends
completed with nothing skipped and never dispatches the four gated steps. -/
theorem C1_starter_run_amended_witness :
    (applyUpdates (create_provisioning_job [] "Widget" "starter" "t9" [] "j9" 0).1
      (provision_tenant_with_progress
        (create_provisioning_job [] "Widget" "starter" "t9" [] "j9" 0).2 "j9"
        (fun _ => Except.ok ()) 3).updates 3).status = "completed" ∧
    (applyUpdates (create_provisioning_job [] "Widget" "starter" "t9" [] "j9" 0).1
      (provision_tenant_with_progress
        (create_provisioning_job [] "Widget" "starter" "t9" [] "j9" 0).2 "j9"
        (fun _ => Except.ok ()) 3).updates 3).steps_skipped = [] ∧
    (provision_tenant_with_progress
      (create_provisioning_job [] "Widget" "starter" "t9" [] "j9" 0).2 "j9"
      (fun _ => Except.ok ()) 3).executed
      = (get_provisioning_steps starterTier).map (·.id) ∧
    (get_provisioning_steps starterTier).all (fun s =>
      !(s.id == "provision_database") && !(s.id == "update_bindings") &&
      !(s.id == "deploy_worker") && !(s.id == "configure_domain")) = true :=
  C1_starter_run_amended [] "Widget" "t9" [] "j9" 0 3 (fun _ => Except.ok ())
    (fun _ _ => rfl)

/-- The `current_step` values written by the engine loop from position `n`
form the contiguous run `n+1, n+2, …` up to the step at which the loop
stopped (everything on success, the failing step on an exception). -/
theorem runSteps_current_steps (handlers : String → Except String Unit)
    (tier : TierConfig) (tenant_id : String) (now : Nat) :
    ∀ (steps : List ProvisioningStep) (n : Nat) (completed skipped : List String),
      ∃ k, k ≤ steps.length ∧
        currentStepWrites
          (runSteps handlers tier tenant_id now steps n completed skipped).updates
          = List.range' (n + 1) k := by
  intro steps
  induction steps with
  | nil =>
      intro n completed skipped
      exact ⟨0, Nat.le_refl 0, by simp [runSteps, currentStepWrites]⟩
  | cons step rest ih =>
      intro n completed skipped
      cases hskip : engineSkipReason tier step with
      | some reason =>
          obtain ⟨k, hk, hcs⟩ := ih (n + 1) completed (skipped ++ [step.id])
          refine ⟨k + 1, by simpa using Nat.succ_le_succ hk, ?_⟩
          simp [runSteps, hskip, currentStepWrites] at hcs ⊢
          simp [hcs, List.range'_succ]
      | none =>
          cases hh : handlers step.id with
          | ok u =>
              obtain ⟨k, hk, hcs⟩ := ih (n + 1) (completed ++ [step.id]) skipped
              refine ⟨k + 1, by simpa using Nat.succ_le_succ hk, ?_⟩
              simp [runSteps, hskip, hh, currentStepWrites] at hcs ⊢
              simp [hcs, List.range'_succ]
          | error msg =>
              refine ⟨1, by simp, ?_⟩
              simp [runSteps, hskip, hh, currentStepWrites, List.range'_succ]

/-- Prepending a lower bound to a contiguous run keeps it non-decreasing. -/
theorem nonDecreasingB_range' :
    ∀ (k a b : Nat), b ≤ a → nonDecreasingB (b :: List.range' a k) = true := by
  intro k
  induction k with
  | zero => intro a b _; rfl
  | succ k ih =>
      intro a b hba
      rw [List.range'_succ, nonDecreasingB]
      simp only [Bool.and_eq_true, decide_eq_true_eq]
      exact ⟨hba, ih (a + 1) a (Nat.le_succ a)⟩

/-- C7 counterexample: with two engine runs driving the same freshly
created starter job (as happens when a stream attaches to a job whose
background run is in flight), the interleaved write sequence makes
`current_step` decrease: the first run has already written `2` when the
second run's first step write sets it back to `1`. -/
theorem C7_interleaved_counterexample :
    nonDecreasingB
      ((create_provisioning_job [] "Acme" "starter" "t3" [] "j3" 0).1.current_step ::
        currentStepWrites (interleave [true, true, true, true, false, false]
          (provision_tenant_with_progress
            (create_provisioning_job [] "Acme" "starter" "t3" [] "j3" 0).2 "j3"
            (fun _ => Except.ok ()) 1).updates
          (provision_tenant_with_progress
            (create_provisioning_job [] "Acme" "starter" "t3" [] "j3" 0).2 "j3"
            (fun _ => Except.ok ()) 2).updates)) = false := by
  decide

/-- For a single engine run over a store holding the job, with the stored
`total_steps` consistent with the stored tier, the written `current_step`
values are non-decreasing from `0` and never exceed `total_steps`. -/
theorem run_current_steps_monotone (store : JobStore) (job_id : String)
    (handlers : String → Except String Unit) (now2 : Nat) (job : ProvisioningJob)
    (hlook : lookupJob store job_id = some job)
    (htot : job.total_steps
      = (get_provisioning_steps ((get_tier job.tier).getD starterTier)).length) :
    nonDecreasingB (0 ::
      currentStepWrites
        (provision_tenant_with_progress store job_id handlers now2).updates) = true ∧
    (currentStepWrites
        (provision_tenant_with_progress store job_id handlers now2).updates).all
      (fun x => decide (x ≤ job.total_steps)) = true := by
  obtain ⟨k, hk, hcs⟩ := runSteps_current_steps handlers
    ((get_tier job.tier).getD starterTier) job.tenant_id now2
    (get_provisioning_steps ((get_tier job.tier).getD starterTier)) 0 [] []
  have hwrites : currentStepWrites
      (provision_tenant_with_progress store job_id handlers now2).updates
      = List.range' 1 k := by
    simp only [provision_tenant_with_progress, hlook]
    simpa [currentStepWrites] using hcs
  rw [hwrites]
  constructor
  · exact nonDecreasingB_range' k 1 0 (Nat.zero_le 1)
  · rw [List.all_eq_true]
    intro x hx
    obtain ⟨-, hlt⟩ := List.mem_range'_1.mp hx
    simp only [decide_eq_true_eq]
    omega

/-- C7 (amended): over the lifetime of a job driven by its creation and a
single engine run, `current_step` starts at `0`, never decreases from one
persisted write to the next, and never exceeds `total_steps`; the original
claim fails once a second concurrent run (a stream attachment re-driving a
non-terminal job) interleaves its writes. -/
theorem C7_single_run_monotone (store : JobStore) (name tier tenant_id : String)
    (settings : List (String × String)) (job_id : String) (now : Nat)
    (handlers : String → Except String Unit) (now2 : Nat) :
    nonDecreasingB
      ((create_provisioning_job store name tier tenant_id settings job_id
          now).1.current_step ::
        currentStepWrites
          (provision_tenant_with_progress
            (create_provisioning_job store name tier tenant_id settings job_id now).2
            job_id handlers now2).updates) = true ∧
    (currentStepWrites
        (provision_tenant_with_progress
          (create_provisioning_job store name tier tenant_id settings job_id now).2
          job_id handlers now2).updates).all
      (fun x => decide (x ≤
        (create_provisioning_job store name tier tenant_id settings job_id
          now).1.total_steps)) = true := by
  have hcs0 : (create_provisioning_job store name tier tenant_id settings job_id
      now).1.current_step = 0 := by
    cases h : get_tier tier <;> simp [create_provisioning_job, h]
  rw [hcs0]
  apply run_current_steps_monotone
  · cases h : get_tier tier <;>
      simp [create_provisioning_job, h, lookupJob, insertJob, List.find?]
  · cases h : get_tier tier <;> simp [create_provisioning_job, h] <;> rfl

/-- Witness for C3: instantiating the filter characterization at the
starter tier and the `provision_database` step shows that step excluded
(its infra requirement is unmet on fully shared infrastructure). -/
theorem C3_get_provisioning_steps_witness :
    (({ id := "provision_database", name := "Provision Database",
        description := "Setting up tenant database",
        required_infra := some "dedicated" } : ProvisioningStep)
      ∈ get_provisioning_steps starterTier ↔
      ((some "dedicated" = (none : Option String) ∨
          starterTier.infra.storage = "dedicated" ∨
          starterTier.infra.database = "dedicated") ∧
       ((none : Option String) = none ∨
          ∃ f, (none : Option String) = some f ∧ f ∈ starterTier.features))) :=
  (C3_get_provisioning_steps starterTier).2.1
    { id := "provision_database", name := "Provision Database",
      description := "Setting up tenant database",
      required_infra := some "dedicated" } (by decide)
